import Mathlib

/-!
Shallow embedding of `lib/termineter/options.py` (the typed option registry of
the termineter project), together with theorems checking the specification's
claims about it.

Modelling conventions:
- Python values that can live in an option's `value`/`default` slot are
  modelled by the inductive `PyVal` (`None`, `str`, `int`, `float`, `bool`).
  Python floats are modelled by exact rationals: every input the float
  coercion path accepts is a plain decimal-digit string with at most one
  dot, and no claim depends on binary rounding of the resulting value.
- Strings are assumed ASCII (the module's inputs are option names and CLI
  tokens). The Python `str` methods the module calls (`lower`, `isdigit`,
  `startswith`, `count`, `replace`, `split`, slicing) are modelled by
  structurally recursive functions on the character list, so that concrete
  instances evaluate inside the kernel.
- Exceptions are modelled by `Except`: `PyErr.keyError` is the spec's
  `UnknownOption` (a Python `KeyError` from the `_options` dict),
  `PyErr.typeError` is the spec's `InvalidValue`
  (`TypeError('invalid value type')`), and `PyErr.exception` is the
  `Exception('unknown value type')` fallback.
- The `_options` dict (Python 3.7+ insertion-ordered, unique keys) is
  modelled by a list of options keyed on `Opt.name`: assigning to an
  existing key replaces the entry in place, otherwise the entry is appended;
  lookup returns the first entry with the key.
- Callbacks are modelled as pure functions `PyVal → PyVal → Bool` returning
  the truthiness of the Python callback's result.
-/

/-- Python `str.lower` on one ASCII character. -/
def ascii_lower (c : Char) : Char :=
  if 65 ≤ c.toNat && c.toNat ≤ 90 then Char.ofNat (c.toNat + 32) else c

/-- Python `str.lower` on an ASCII string. -/
def py_lower (s : String) : String :=
  (s.toList.map ascii_lower).asString

/-- Python `str.startswith`. -/
def py_startswith (s t : String) : Bool :=
  List.isPrefixOf t.toList s.toList

/-- Python slicing `s[n:]`. -/
def py_drop (s : String) (n : Nat) : String :=
  (s.toList.drop n).asString

/-- Python `str.isdigit` on ASCII input: non-empty and all characters 0-9. -/
def py_isdigit (s : String) : Bool :=
  s.length != 0 && s.toList.all (fun c => c.isDigit)

/-- Python `value.count(c)` for a single character. -/
def str_count (s : String) (c : Char) : Nat :=
  (s.toList.filter (fun x => x == c)).length

/-- Python `value.replace(c, '')` for a single character: drop every
occurrence. -/
def str_remove (s : String) (c : Char) : String :=
  (s.toList.filter (fun x => x != c)).asString

/-- Scanner for Python `str.replace(pat, rep)` with a non-empty pattern:
left to right, replacing non-overlapping occurrences. The `Nat` argument is
reduction fuel bounding the number of scanning steps; each step consumes at
least one input character, so `l.length` fuel is always enough. -/
def py_replace_go (pat rep : List Char) : Nat → List Char → List Char
  | 0, l => l
  | _ + 1, [] => []
  | fuel + 1, x :: rest =>
    if pat ≠ [] && List.isPrefixOf pat (x :: rest) then
      rep ++ py_replace_go pat rep fuel ((x :: rest).drop pat.length)
    else
      x :: py_replace_go pat rep fuel rest

/-- Python `str.replace(pat, rep)` for a non-empty pattern. -/
def py_replace (s pat rep : String) : String :=
  (py_replace_go pat.toList rep.toList s.toList.length s.toList).asString

/-- Splitter for Python `str.split(sep)` with a one-character separator:
empty pieces are kept, as Python does for an explicit separator. -/
def py_split_go (c : Char) : List Char → List Char → List (List Char)
  | [], acc => [acc.reverse]
  | x :: rest, acc =>
    if x == c then acc.reverse :: py_split_go c rest []
    else py_split_go c rest (x :: acc)

/-- Python `str.split(sep)` for a one-character separator. -/
def py_split (s : String) (c : Char) : List String :=
  (py_split_go c s.toList []).map List.asString

/-- Truthiness of a Python 3 `filter(...)` object: `filter` returns a lazy
iterator with neither `__bool__` nor `__len__`, so `bool(filter(p, s))` is
`True` for every predicate and every string, whatever the contents. -/
def py3_filter_truthy (_p : Char → Bool) (_s : String) : Bool :=
  true

/-- `string_is_hex` from `options.py` lines 25-28, under Python 3 semantics:
`bool(not filter(lambda c: c not in '0123456789abcdefABCDEF', string))`.
Because the `filter` object is always truthy, the function returns `False`
for every input. -/
def string_is_hex (s : String) : Bool :=
  if s.length == 0 then
    false
  else
    !(py3_filter_truthy (fun c => !(("0123456789abcdefABCDEF").toList.contains c)) s)

/-- The check `string_is_hex` was evidently intended to perform (and performs
under Python 2, where `filter` returns a list): the string is non-empty and
every character is a hexadecimal digit. Kept for comparison with the spec. -/
def string_is_hex_intended (s : String) : Bool :=
  if s.length == 0 then
    false
  else
    s.toList.all (fun c => ("0123456789abcdefABCDEF").toList.contains c)

/-- A Python value that can be stored in an option slot. -/
inductive PyVal where
  | none
  | str (s : String)
  | int (n : Int)
  | flt (q : Rat)
  | bool (b : Bool)
  deriving DecidableEq

/-- Python exceptions raised by `options.py`. `keyError` is the spec's
`UnknownOption`, `typeError` its `InvalidValue`, `exception` the
`unknown value type` fallback. -/
inductive PyErr where
  | keyError
  | typeError
  | exception
  deriving DecidableEq

deriving instance DecidableEq for Except

/-- Base-10 value of a decimal digit string, as computed by Python `int(s)`
on a string that satisfies `isdigit`. -/
def digitsToNat (s : String) : Nat :=
  s.toList.foldl (fun acc c => 10 * acc + (c.toNat - 48)) 0

/-- Value of a single hexadecimal digit character. -/
def hexDigitVal (c : Char) : Nat :=
  if c.isDigit then c.toNat - 48
  else if 97 ≤ c.toNat && c.toNat ≤ 102 then c.toNat - 87
  else if 65 ≤ c.toNat && c.toNat ≤ 70 then c.toNat - 55
  else 0

/-- Base-16 value of a hex digit string, as computed by Python `int(s, 16)`. -/
def hexToNat (s : String) : Nat :=
  s.toList.foldl (fun acc c => 16 * acc + hexDigitVal c) 0

/-- Exact value of Python `float(s)` on a string accepted by the float
branch of `set_option` (only decimal digits and at most one dot). -/
def py_float (s : String) : Rat :=
  match py_split s '.' with
  | [a] => (digitsToNat a : Rat)
  | [a, b] => (digitsToNat a : Rat) + (digitsToNat b : Rat) / ((10 : Rat) ^ b.length)
  | _ => 0

/-- The `Option` class of `options.py` (lines 30-39): name, type tag, help
text, required flag, default, current value and optional change callback. -/
structure Opt where
  name : String
  type : String
  help : String
  required : Bool
  default : PyVal
  value : PyVal
  callback : Option (PyVal → PyVal → Bool)

/-- The directory-context object handed to `Options.__init__`: it supplies
the two path attributes used by `add_rfile` default substitution. -/
structure Directories where
  data_path : String
  user_data : String

/-- The `Options` registry (lines 44-193): the directory context plus the
`_options` dict, modelled as an insertion-ordered unique-key list. -/
structure OptionsState where
  directories : Directories
  _options : List Opt

/-- `Options.__init__`: empty registry over a directory context. -/
def Options.init (directories : Directories) : OptionsState :=
  { directories := directories, _options := [] }

/-- First entry of the dict with the given key (Python dict lookup). -/
def findOption (l : List Opt) (name : String) : Option Opt :=
  match l with
  | [] => Option.none
  | o :: rest => if o.name == name then some o else findOption rest name

/-- `self._options[name] = o`: replace the entry with that key in place,
keeping its position, or append a new entry (Python 3.7+ dict assignment). -/
def dictInsert (l : List Opt) (o : Opt) : List Opt :=
  match l with
  | [] => [o]
  | x :: rest => if x.name == o.name then o :: rest else x :: dictInsert rest o

/-- `option.value = v` on the dict entry with the given key (the Python code
mutates the shared `Option` object in place). -/
def updateValue (l : List Opt) (name : String) (v : PyVal) : List Opt :=
  match l with
  | [] => []
  | o :: rest =>
    if o.name == name then { o with value := v } :: rest
    else o :: updateValue rest name v

/-- `option.callback = cb` on the dict entry with the given key. -/
def updateCallback (l : List Opt) (name : String)
    (cb : Option (PyVal → PyVal → Bool)) : List Opt :=
  match l with
  | [] => []
  | o :: rest =>
    if o.name == name then { o with callback := cb } :: rest
    else o :: updateCallback rest name cb

/-- `Options.get_option` (lines 186-193): dict lookup, `KeyError` if the
name was never declared. -/
def get_option (st : OptionsState) (name : String) : Except PyErr Opt :=
  match findOption st._options name with
  | some o => Except.ok o
  | Option.none => Except.error PyErr.keyError

/-- `Options.__getitem__` (lines 58-59): `self._options[item].value`. -/
def getitem (st : OptionsState) (item : String) : Except PyErr PyVal :=
  match findOption st._options item with
  | some o => Except.ok o.value
  | Option.none => Except.error PyErr.keyError

/-- `Options.add_string` (lines 67-76): declare a String option; `value` is
initialised to `default` by `Option.__init__`. -/
def add_string (st : OptionsState) (name help : String) (required : Bool)
    (default : PyVal) : OptionsState :=
  let o : Opt :=
    { name := name, type := "str", help := help, required := required,
      default := default, value := default, callback := Option.none }
  { st with _options := dictInsert st._options o }

/-- `Options.add_integer` (lines 78-87). -/
def add_integer (st : OptionsState) (name help : String) (required : Bool)
    (default : PyVal) : OptionsState :=
  let o : Opt :=
    { name := name, type := "int", help := help, required := required,
      default := default, value := default, callback := Option.none }
  { st with _options := dictInsert st._options o }

/-- `Options.add_float` (lines 89-98). -/
def add_float (st : OptionsState) (name help : String) (required : Bool)
    (default : PyVal) : OptionsState :=
  let o : Opt :=
    { name := name, type := "flt", help := help, required := required,
      default := default, value := default, callback := Option.none }
  { st with _options := dictInsert st._options o }

/-- `Options.add_boolean` (lines 100-109). -/
def add_boolean (st : OptionsState) (name help : String) (required : Bool)
    (default : PyVal) : OptionsState :=
  let o : Opt :=
    { name := name, type := "bool", help := help, required := required,
      default := default, value := default, callback := Option.none }
  { st with _options := dictInsert st._options o }

/-- `os.path.sep` on the POSIX platform the tool targets. -/
def os_path_sep : String := "/"

/-- `Options.add_rfile` (lines 111-128): like `add_string` with type tag
`rfile`, but a string default first has every occurrence of
`"$DATA_PATH "` replaced by `directories.data_path + os.path.sep` and every
occurrence of `"$USER_DATA "` by `directories.user_data + os.path.sep`. -/
def add_rfile (st : OptionsState) (name help : String) (required : Bool)
    (default : PyVal) : OptionsState :=
  let default2 :=
    match default with
    | PyVal.str s =>
        PyVal.str (py_replace
          (py_replace s "$DATA_PATH " (st.directories.data_path ++ os_path_sep))
          "$USER_DATA " (st.directories.user_data ++ os_path_sep))
    | v => v
  let o : Opt :=
    { name := name, type := "rfile", help := help, required := required,
      default := default2, value := default2, callback := Option.none }
  { st with _options := dictInsert st._options o }

/-- `Options.set_callback` (lines 130-138):
`self.get_option(name).callback = callback`. -/
def set_callback (st : OptionsState) (name : String)
    (cb : Option (PyVal → PyVal → Bool)) : Except PyErr OptionsState :=
  match get_option st name with
  | Except.error e => Except.error e
  | Except.ok _ => Except.ok { st with _options := updateCallback st._options name cb }

/-- The type-dispatch part of `Options.set_option` (lines 150-174): from the
option's type tag and the raw string, compute the value stored in
`option.value` and the value left in the Python local `value` (the first
argument later handed to the callback), or raise. Branches in source order:
- `str`/`rfile`: store the raw string verbatim;
- `int`: lowercase; all-digits parses base 10 (the local stays the string);
  otherwise a `0x`-prefixed string whose rest passes `string_is_hex` parses
  base 16 (the local becomes the int); otherwise `TypeError`;
- `flt`: more than one dot, or non-digits once dots are removed, is a
  `TypeError`; otherwise `float(value)`;
- `bool`: lowercased membership in `true/1/on` stores `True`, in
  `false/0/off` stores `False`, else `TypeError`;
- any other tag: `Exception('unknown value type')`. -/
def coerce_value (ty : String) (raw : String) : Except PyErr (PyVal × PyVal) :=
  if ty == "str" || ty == "rfile" then
    Except.ok (PyVal.str raw, PyVal.str raw)
  else if ty == "int" then
    if py_isdigit (py_lower raw) then
      Except.ok (PyVal.int (Int.ofNat (digitsToNat (py_lower raw))),
        PyVal.str (py_lower raw))
    else if py_startswith (py_lower raw) "0x" &&
        string_is_hex (py_drop (py_lower raw) 2) then
      let n := PyVal.int (Int.ofNat (hexToNat (py_drop (py_lower raw) 2)))
      Except.ok (n, n)
    else
      Except.error PyErr.typeError
  else if ty == "flt" then
    if str_count raw '.' > 1 then Except.error PyErr.typeError
    else if !(py_isdigit (str_remove raw '.')) then Except.error PyErr.typeError
    else Except.ok (PyVal.flt (py_float raw), PyVal.str raw)
  else if ty == "bool" then
    if ["true", "1", "on"].contains (py_lower raw) then
      Except.ok (PyVal.bool true, PyVal.str raw)
    else if ["false", "0", "off"].contains (py_lower raw) then
      Except.ok (PyVal.bool false, PyVal.str raw)
    else
      Except.error PyErr.typeError
  else
    Except.error PyErr.exception

/-- `Options.set_option` (lines 140-177). Looks the option up
(`KeyError` when undeclared), saves `old_value`, coerces the raw string
per the type tag (raising leaves the registry untouched, since every raise
happens before `option.value` is assigned), then — when a callback is
attached and returns a falsy result on `(value, old_value)` — reverts
`option.value` to `old_value`; returns `old_value`. The pair carries the
Python return-or-raise outcome together with the registry after the call. -/
def Options.set_option (st : OptionsState) (name raw : String) :
    Except PyErr PyVal × OptionsState :=
  match get_option st name with
  | Except.error e => (Except.error e, st)
  | Except.ok opt =>
    match coerce_value opt.type raw with
    | Except.error e => (Except.error e, st)
    | Except.ok (stored, cbArg) =>
      let newVal :=
        match opt.callback with
        | some cb => if cb cbArg opt.value then stored else opt.value
        | Option.none => stored
      (Except.ok opt.value, { st with _options := updateValue st._options name newVal })

/-- `Options.get_missing_options` (lines 179-184): names of the options that
are required and whose value is `None`, in dict (declaration) order. -/
def get_missing_options (st : OptionsState) : List String :=
  (st._options.filter (fun o => o.required && decide (o.value = PyVal.none))).map
    (fun o => o.name)

/-- Every field of an option except its mutable current value. -/
def optFrame (o : Opt) :
    String × String × String × Bool × PyVal × Option (PyVal → PyVal → Bool) :=
  (o.name, o.type, o.help, o.required, o.default, o.callback)

theorem string_is_hex_false (s : String) : string_is_hex s = false := by
  unfold string_is_hex py3_filter_truthy
  split <;> rfl

theorem findOption_dictInsert (l : List Opt) (o : Opt) (name : String)
    (h : o.name = name) : findOption (dictInsert l o) name = some o := by
  induction l with
  | nil => simp [dictInsert, findOption, h]
  | cons x rest ih =>
    by_cases hx : x.name = o.name
    · simp [dictInsert, findOption, hx, h]
    · have hx2 : x.name ≠ name := h ▸ hx
      simp [dictInsert, findOption, hx, hx2, ih]

theorem findOption_updateValue (l : List Opt) (name : String) (v : PyVal) :
    findOption (updateValue l name v) name =
      (findOption l name).map (fun o => { o with value := v }) := by
  induction l with
  | nil => rfl
  | cons x rest ih =>
    by_cases h : x.name = name
    · simp [updateValue, findOption, h]
    · simp [updateValue, findOption, h, ih]

theorem updateValue_map_optFrame (l : List Opt) (name : String) (v : PyVal) :
    (updateValue l name v).map optFrame = l.map optFrame := by
  induction l with
  | nil => rfl
  | cons x rest ih =>
    by_cases h : x.name = name
    · simp [updateValue, optFrame, h]
    · simp [updateValue, h, ih]

/-- The value `set_option` finally leaves in `option.value` after a
successful coercion: the coerced value, unless an attached callback returns
a falsy result on `(value, old_value)`, in which case the old value. -/
def finalValue (opt : Opt) (stored cbArg : PyVal) : PyVal :=
  match opt.callback with
  | some cb => if cb cbArg opt.value then stored else opt.value
  | Option.none => stored

/-- Exhaustive description of one `set_option` call: unknown name, coercion
failure, or success with the callback-mediated final value. -/
theorem set_option_cases (st : OptionsState) (name raw : String) :
    (findOption st._options name = Option.none ∧
      Options.set_option st name raw = (Except.error PyErr.keyError, st)) ∨
    (∃ opt e, findOption st._options name = some opt ∧
      coerce_value opt.type raw = Except.error e ∧
      Options.set_option st name raw = (Except.error e, st)) ∨
    (∃ opt stored cbArg, findOption st._options name = some opt ∧
      coerce_value opt.type raw = Except.ok (stored, cbArg) ∧
      Options.set_option st name raw = (Except.ok opt.value,
        { st with
          _options := updateValue st._options name (finalValue opt stored cbArg) })) := by
  cases hf : findOption st._options name with
  | none =>
    exact Or.inl ⟨rfl, by simp [Options.set_option, get_option, hf]⟩
  | some opt =>
    cases hc : coerce_value opt.type raw with
    | error e =>
      exact Or.inr (Or.inl ⟨opt, e, rfl, hc,
        by simp [Options.set_option, get_option, finalValue, hf, hc]⟩)
    | ok p =>
      obtain ⟨stored, cbArg⟩ := p
      exact Or.inr (Or.inr ⟨opt, stored, cbArg, rfl, hc,
        by simp [Options.set_option, get_option, finalValue, hf, hc]⟩)

/-- A concrete directory context used by the concrete registries below. -/
def dirsC : Directories := { data_path := "/opt/data", user_data := "/home/user" }

/-- Registry holding the spec scenario's Integer option `PORT`:
required, no default. -/
def stC1 : OptionsState :=
  add_integer (Options.init dirsC) "PORT" "port" true PyVal.none

/-- C1: the claim says that on an Integer option, `set` with a lowercased
non-digit raw string of the form `0x` plus hex digits parses the remainder
base-16 — in particular `set("PORT", "0x1F90")` stores 8080. The code does
not: under Python 3 `string_is_hex` returns `False` for every string (its
`filter` object is always truthy), so every `0x`-prefixed input raises
`TypeError('invalid value type')` — the `InvalidValue` failure — and the
registry is untouched. The intended check would have accepted `"1f90"`,
whose base-16 value is 8080. -/
theorem C1_hex_set_raises :
    (Options.set_option stC1 "PORT" "0x1F90").1 = Except.error PyErr.typeError ∧
    (Options.set_option stC1 "PORT" "0x1F90").2 = stC1 ∧
    string_is_hex "1f90" = false ∧
    string_is_hex_intended "1f90" = true ∧
    hexToNat "1f90" = 8080 :=
  ⟨by decide, rfl, string_is_hex_false "1f90", by decide, by decide⟩

/-- C4: whenever `set_option` raises `InvalidValue` (`TypeError`), the
registry is left exactly as it was: every raise in the coercion branches
happens before `option.value` is assigned. -/
theorem C4_failure_leaves_state (st : OptionsState) (name raw : String)
    (h : (Options.set_option st name raw).1 = Except.error PyErr.typeError) :
    (Options.set_option st name raw).2 = st := by
  rcases set_option_cases st name raw with ⟨_, h2⟩ | ⟨opt, e, _, _, h2⟩ |
    ⟨opt, stored, cbArg, _, _, h2⟩
  · rw [h2]
  · rw [h2]
  · rw [h2] at h
    exact absurd h (by simp)

/-- Float option used to witness C4 on the spec's `"1.2.3"` input. -/
def stC4 : OptionsState :=
  add_float (Options.init dirsC) "F" "f" true (PyVal.flt 1)

/-- Witness for C4: the Float option `F` rejects `"1.2.3"` (two dots) with
`InvalidValue` and the registry is unchanged. -/
theorem C4_witness :
    (Options.set_option stC4 "F" "1.2.3").1 = Except.error PyErr.typeError ∧
    (Options.set_option stC4 "F" "1.2.3").2 = stC4 :=
  ⟨by decide, C4_failure_leaves_state stC4 "F" "1.2.3" (by decide)⟩

/-- Integer option used for the C5 round-trip claim. -/
def stC5 : OptionsState :=
  add_integer (Options.init dirsC) "N" "n" true PyVal.none

/-- C5: the decimal half of the round-trip holds at `n = 25`
(`set` stores the integer 25 and returns the absent previous value), but the
hex half fails: `"0x19"` — and its uppercase-digit form — raise
`TypeError('invalid value type')` because `string_is_hex` is constantly
`False` under Python 3, although the intended check accepts `"19"`, whose
base-16 value is the same 25. (The decimal half also holds only for
nonnegative `n`: a leading minus sign never satisfies `isdigit`.) -/
theorem C5_decimal_ok_hex_raises :
    (Options.set_option stC5 "N" "25").1 = Except.ok PyVal.none ∧
    getitem (Options.set_option stC5 "N" "25").2 "N" = Except.ok (PyVal.int 25) ∧
    (Options.set_option stC5 "N" "0x19").1 = Except.error PyErr.typeError ∧
    (Options.set_option stC5 "N" "0X19").1 = Except.error PyErr.typeError ∧
    (Options.set_option stC5 "N" "-25").1 = Except.error PyErr.typeError ∧
    string_is_hex_intended "19" = true ∧
    hexToNat "19" = 25 :=
  ⟨by decide, by decide, by decide, by decide, by decide, by decide, by decide⟩

/-- C8: immediately after any declaration, the declared name reads back as
the declared default; for `add_rfile` with a string default, the stored
default is the string with `"$DATA_PATH "` replaced by
`directories.data_path + os.path.sep` and `"$USER_DATA "` by
`directories.user_data + os.path.sep`, substituted once at declaration,
while a non-string default (here `None`) is stored untouched. -/
theorem C8_default_after_declaration (st : OptionsState) (name help : String)
    (req : Bool) (d : PyVal) (s : String) :
    getitem (add_string st name help req d) name = Except.ok d ∧
    getitem (add_integer st name help req d) name = Except.ok d ∧
    getitem (add_float st name help req d) name = Except.ok d ∧
    getitem (add_boolean st name help req d) name = Except.ok d ∧
    getitem (add_rfile st name help req (PyVal.str s)) name =
      Except.ok (PyVal.str (py_replace
        (py_replace s "$DATA_PATH " (st.directories.data_path ++ os_path_sep))
        "$USER_DATA " (st.directories.user_data ++ os_path_sep))) ∧
    getitem (add_rfile st name help req PyVal.none) name = Except.ok PyVal.none := by
  refine ⟨?_, ?_, ?_, ?_, ?_, ?_⟩ <;>
    simp [getitem, add_string, add_integer, add_float, add_boolean, add_rfile,
      findOption_dictInsert]

/-- C9: every operation that references an undeclared name — `set_option`
(which also leaves the registry untouched), `__getitem__`, `get_option` and
`set_callback` — fails with the `KeyError` that models `UnknownOption`. -/
theorem C9_unknown_name_raises (st : OptionsState) (name raw : String)
    (cb : Option (PyVal → PyVal → Bool))
    (h : findOption st._options name = Option.none) :
    (Options.set_option st name raw).1 = Except.error PyErr.keyError ∧
    (Options.set_option st name raw).2 = st ∧
    getitem st name = Except.error PyErr.keyError ∧
    get_option st name = Except.error PyErr.keyError ∧
    set_callback st name cb = Except.error PyErr.keyError := by
  refine ⟨?_, ?_, ?_, ?_, ?_⟩ <;>
    simp [Options.set_option, getitem, get_option, set_callback, h]

/-- Witness for C9 on an empty registry and the spec's `"UNDEFINED_NAME"`. -/
theorem C9_witness :
    (Options.set_option (Options.init dirsC) "UNDEFINED_NAME" "x").1 =
      Except.error PyErr.keyError ∧
    (Options.set_option (Options.init dirsC) "UNDEFINED_NAME" "x").2 =
      Options.init dirsC ∧
    getitem (Options.init dirsC) "UNDEFINED_NAME" = Except.error PyErr.keyError ∧
    get_option (Options.init dirsC) "UNDEFINED_NAME" = Except.error PyErr.keyError ∧
    set_callback (Options.init dirsC) "UNDEFINED_NAME" Option.none =
      Except.error PyErr.keyError :=
  C9_unknown_name_raises (Options.init dirsC) "UNDEFINED_NAME" "x" Option.none rfl

/-- Entries under any other key are untouched by `updateValue`: lookup of a
different name sees exactly the same result, value included. -/
theorem findOption_updateValue_ne (l : List Opt) (name m : String) (v : PyVal)
    (h : m ≠ name) : findOption (updateValue l name v) m = findOption l m := by
  induction l with
  | nil => rfl
  | cons x rest ih =>
    by_cases hx : x.name = name
    · have hxm : x.name ≠ m := by
        rw [hx]
        exact Ne.symm h
      simp [updateValue, findOption, hx, hxm, Ne.symm h]
    · by_cases hm : x.name = m
      · simp [updateValue, findOption, hx, hm, h]
      · simp [updateValue, findOption, hx, hm, ih]

/-- C10: `set_option` mutates at most the `value` field of the named option:
in every outcome (success, callback veto, or raise) the list of options keeps
its length and order, every option keeps its `name`, `type`, `help`,
`required`, `default` and `callback` fields, the directory context is
untouched, and every option under a different name keeps its entire entry —
its current value included. -/
theorem C10_set_option_frame (st : OptionsState) (name raw : String) :
    (Options.set_option st name raw).2._options.map optFrame =
      st._options.map optFrame ∧
    (Options.set_option st name raw).2.directories = st.directories ∧
    (∀ m, m ≠ name →
      findOption (Options.set_option st name raw).2._options m =
        findOption st._options m) := by
  rcases set_option_cases st name raw with ⟨_, h2⟩ | ⟨opt, e, _, _, h2⟩ |
    ⟨opt, stored, cbArg, _, _, h2⟩ <;> rw [h2]
  · exact ⟨rfl, rfl, fun m _ => rfl⟩
  · exact ⟨rfl, rfl, fun m _ => rfl⟩
  · exact ⟨updateValue_map_optFrame st._options name _, rfl,
      fun m hm => findOption_updateValue_ne st._options name m _ hm⟩

/-- Registry with the Integer option `A` and the String option `B`
(holding a default), used to witness C10. -/
def stC10 : OptionsState :=
  add_string (add_integer (Options.init dirsC) "A" "a" true PyVal.none)
    "B" "b" true (PyVal.str "kept")

/-- Witness for C10: setting `A` to `"7"` preserves the frame projection,
the directories, and the whole entry of the other option `B`. -/
theorem C10_witness :
    (Options.set_option stC10 "A" "7").2._options.map optFrame =
      stC10._options.map optFrame ∧
    (Options.set_option stC10 "A" "7").2.directories = stC10.directories ∧
    findOption (Options.set_option stC10 "A" "7").2._options "B" =
      findOption stC10._options "B" :=
  ⟨(C10_set_option_frame stC10 "A" "7").1,
    (C10_set_option_frame stC10 "A" "7").2.1,
    (C10_set_option_frame stC10 "A" "7").2.2 "B" (by decide)⟩

/-- C3: for a declared option with an attached callback, a `set_option` call
whose coercion succeeds always returns the pre-call value, and the stored
value afterwards is the coerced value when the callback returns a truthy
result and reverts to the pre-call value when it returns a falsy one. -/
theorem C3_callback_veto_commit (st : OptionsState) (name raw : String)
    (opt : Opt) (cb : PyVal → PyVal → Bool) (stored cbArg : PyVal)
    (hfind : findOption st._options name = some opt)
    (hcb : opt.callback = some cb)
    (hco : coerce_value opt.type raw = Except.ok (stored, cbArg)) :
    (Options.set_option st name raw).1 = Except.ok opt.value ∧
    (findOption (Options.set_option st name raw).2._options name).map Opt.value =
      some (if cb cbArg opt.value then stored else opt.value) := by
  rcases set_option_cases st name raw with ⟨h1, _⟩ | ⟨opt2, e, h1, h2, _⟩ |
    ⟨opt2, stored2, cbArg2, h1, h2, h3⟩
  · rw [hfind] at h1
    exact absurd h1 (by simp)
  · rw [hfind] at h1
    injection h1 with h1
    subst h1
    rw [hco] at h2
    exact absurd h2 (by simp)
  · rw [hfind] at h1
    injection h1 with h1
    subst h1
    rw [hco] at h2
    injection h2 with h2
    injection h2 with hs hA
    subst hs
    subst hA
    rw [h3]
    refine ⟨rfl, ?_⟩
    rw [findOption_updateValue, hfind]
    simp [finalValue, hcb]

/-- A callback that always vetoes. -/
def cbReject : PyVal → PyVal → Bool := fun _ _ => false

/-- Extract the registry from a successful `set_callback`. -/
def okOr (e : Except PyErr OptionsState) (d : OptionsState) : OptionsState :=
  match e with
  | Except.ok st => st
  | Except.error _ => d

/-- Registry with the Boolean option `W` carrying the always-vetoing
callback. -/
def stC3 : OptionsState :=
  okOr (set_callback (add_boolean (Options.init dirsC) "W" "w" true PyVal.none)
    "W" (some cbReject)) (Options.init dirsC)

/-- The option record held by `stC3` under the name `W`. -/
def optW : Opt :=
  { name := "W", type := "bool", help := "w", required := true,
    default := PyVal.none, value := PyVal.none, callback := some cbReject }

/-- Witness for C3: setting `W` to `"true"` under the vetoing callback
returns the pre-call value `None` and leaves the stored value at `None`. -/
theorem C3_witness :
    (Options.set_option stC3 "W" "true").1 = Except.ok PyVal.none ∧
    (findOption (Options.set_option stC3 "W" "true").2._options "W").map Opt.value =
      some (if cbReject (PyVal.str "true") PyVal.none then PyVal.bool true
        else PyVal.none) :=
  C3_callback_veto_commit stC3 "W" "true" optW cbReject (PyVal.bool true)
    (PyVal.str "true") rfl rfl rfl

/-- A callback that accepts exactly the coerced boolean `True`. -/
def cbWantsBool : PyVal → PyVal → Bool := fun nv _ => decide (nv = PyVal.bool true)

/-- Registry with the Boolean option `V` carrying `cbWantsBool`. -/
def stC2 : OptionsState :=
  okOr (set_callback (add_boolean (Options.init dirsC) "V" "v" true PyVal.none)
    "V" (some cbWantsBool)) (Options.init dirsC)

/-- Counterexample to C2 as stated: for the Boolean option `V`, the coercion
of `"TRUE"` succeeds with coerced value `True`, but the callback is invoked
with the raw string `"TRUE"` — not the coerced boolean: a callback that
returns true exactly on the coerced value `True` still vetoes the set, so the
stored value stays `None` instead of committing to `True`. -/
theorem C2_counterexample :
    coerce_value "bool" "TRUE" = Except.ok (PyVal.bool true, PyVal.str "TRUE") ∧
    PyVal.str "TRUE" ≠ PyVal.bool true ∧
    (Options.set_option stC2 "V" "TRUE").1 = Except.ok PyVal.none ∧
    (findOption (Options.set_option stC2 "V" "TRUE").2._options "V").map Opt.value =
      some PyVal.none :=
  ⟨by decide, by decide, by decide, by decide⟩

/-- C2 amended: on every successful coercion the callback's first argument
is the Python local `value` at call time — the raw string for every kind
except Integer, where it is the lowercased raw string — so it coincides with
the coerced typed value exactly for String/ReadableFilePath. (The only branch
that would pass a typed value, the hex Integer branch, is unreachable because
`string_is_hex` is constantly false.) -/
theorem C2_callback_arg_is_python_local (ty raw : String) (stored cbArg : PyVal)
    (h : coerce_value ty raw = Except.ok (stored, cbArg)) :
    cbArg = PyVal.str (if ty = "int" then py_lower raw else raw) ∧
    (ty = "str" ∨ ty = "rfile" → cbArg = stored) := by
  unfold coerce_value at h
  by_cases h1 : ty = "str" ∨ ty = "rfile"
  · have hb : (ty == "str" || ty == "rfile") = true := by
      rcases h1 with rfl | rfl <;> decide
    rw [if_pos hb] at h
    injection h with h
    injection h with hs hA
    have hni : ty ≠ "int" := by rcases h1 with rfl | rfl <;> decide
    rw [if_neg hni]
    exact ⟨hA.symm, fun _ => hA.symm.trans hs⟩
  · have hb : ¬((ty == "str" || ty == "rfile") = true) := by simpa using h1
    rw [if_neg hb] at h
    refine ⟨?_, fun hc => absurd hc h1⟩
    by_cases h2 : ty = "int"
    · subst h2
      rw [if_pos (by decide : (("int" : String) == "int") = true)] at h
      rw [if_pos rfl]
      by_cases h3 : py_isdigit (py_lower raw) = true
      · rw [if_pos h3] at h
        injection h with h
        injection h with hs hA
        exact hA.symm
      · rw [if_neg h3, string_is_hex_false] at h
        simp at h
    · have hbi : ¬((ty == "int") = true) := by simpa using h2
      rw [if_neg hbi] at h
      rw [if_neg h2]
      by_cases h3 : ty = "flt"
      · subst h3
        rw [if_pos (by decide : (("flt" : String) == "flt") = true)] at h
        by_cases h4 : str_count raw '.' > 1
        · rw [if_pos h4] at h
          exact absurd h (by simp)
        · rw [if_neg h4] at h
          by_cases h5 : (!(py_isdigit (str_remove raw '.'))) = true
          · rw [if_pos h5] at h
            exact absurd h (by simp)
          · rw [if_neg h5] at h
            injection h with h
            injection h with hs hA
            exact hA.symm
      · have hbf : ¬((ty == "flt") = true) := by simpa using h3
        rw [if_neg hbf] at h
        by_cases h4 : ty = "bool"
        · subst h4
          rw [if_pos (by decide : (("bool" : String) == "bool") = true)] at h
          by_cases h5 : (["true", "1", "on"].contains (py_lower raw)) = true
          · rw [if_pos h5] at h
            injection h with h
            injection h with hs hA
            exact hA.symm
          · rw [if_neg h5] at h
            by_cases h6 : (["false", "0", "off"].contains (py_lower raw)) = true
            · rw [if_pos h6] at h
              injection h with h
              injection h with hs hA
              exact hA.symm
            · rw [if_neg h6] at h
              exact absurd h (by simp)
        · have hbb : ¬((ty == "bool") = true) := by simpa using h4
          rw [if_neg hbb] at h
          exact absurd h (by simp)

/-- Witness for C2's amended theorem at the Boolean kind and raw `"TRUE"`:
the callback argument is the raw string, and the kind is not
String/ReadableFilePath. -/
theorem C2_witness :
    PyVal.str "TRUE" =
      PyVal.str (if ("bool" : String) = "int" then py_lower "TRUE" else "TRUE") ∧
    (("bool" : String) = "str" ∨ ("bool" : String) = "rfile" →
      PyVal.str "TRUE" = PyVal.bool true) :=
  C2_callback_arg_is_python_local "bool" "TRUE" (PyVal.bool true)
    (PyVal.str "TRUE") (by decide)

/-- A `set_option` call whose coercion fails returns the error and leaves
the registry untouched. -/
theorem set_option_coerce_error (st : OptionsState) (name raw : String)
    (opt : Opt) (e : PyErr)
    (hfind : findOption st._options name = some opt)
    (hco : coerce_value opt.type raw = Except.error e) :
    Options.set_option st name raw = (Except.error e, st) := by
  rcases set_option_cases st name raw with ⟨h1, _⟩ | ⟨opt2, e2, h1, h2, h3⟩ |
    ⟨opt2, stored2, cbArg2, h1, h2, _⟩
  · rw [hfind] at h1
    exact absurd h1 (by simp)
  · rw [hfind] at h1
    injection h1 with h1
    subst h1
    rw [hco] at h2
    injection h2 with h2
    rw [h3, h2]
  · rw [hfind] at h1
    injection h1 with h1
    subst h1
    rw [hco] at h2
    exact absurd h2 (by simp)

/-- A `set_option` call on a callback-free option whose coercion succeeds
returns the pre-call value and stores the coerced value. -/
theorem set_option_ok_no_callback (st : OptionsState) (name raw : String)
    (opt : Opt) (stored cbArg : PyVal)
    (hfind : findOption st._options name = some opt)
    (hcb : opt.callback = Option.none)
    (hco : coerce_value opt.type raw = Except.ok (stored, cbArg)) :
    (Options.set_option st name raw).1 = Except.ok opt.value ∧
    (findOption (Options.set_option st name raw).2._options name).map Opt.value =
      some stored := by
  rcases set_option_cases st name raw with ⟨h1, _⟩ | ⟨opt2, e, h1, h2, _⟩ |
    ⟨opt2, stored2, cbArg2, h1, h2, h3⟩
  · rw [hfind] at h1
    exact absurd h1 (by simp)
  · rw [hfind] at h1
    injection h1 with h1
    subst h1
    rw [hco] at h2
    exact absurd h2 (by simp)
  · rw [hfind] at h1
    injection h1 with h1
    subst h1
    rw [hco] at h2
    injection h2 with h2
    injection h2 with hs hA
    subst hs
    subst hA
    rw [h3]
    refine ⟨rfl, ?_⟩
    rw [findOption_updateValue, hfind]
    simp [finalValue, hcb]

/-- The bool branch of the coercion, phrased through list membership. -/
theorem coerce_value_bool (raw : String) :
    coerce_value "bool" raw =
      (if py_lower raw ∈ ["true", "1", "on"] then
        Except.ok (PyVal.bool true, PyVal.str raw)
      else if py_lower raw ∈ ["false", "0", "off"] then
        Except.ok (PyVal.bool false, PyVal.str raw)
      else Except.error PyErr.typeError) := by
  unfold coerce_value
  rw [if_neg (by decide), if_neg (by decide), if_neg (by decide),
    if_pos (by decide : (("bool" : String) == "bool") = true)]
  by_cases hm1 : py_lower raw ∈ (["true", "1", "on"] : List String)
  · have hc1 : (["true", "1", "on"].contains (py_lower raw)) = true := by
      simpa using hm1
    rw [if_pos hc1, if_pos hm1]
  · have hc1 : ¬((["true", "1", "on"].contains (py_lower raw)) = true) := by
      simpa using hm1
    rw [if_neg hc1, if_neg hm1]
    by_cases hm2 : py_lower raw ∈ (["false", "0", "off"] : List String)
    · have hc2 : (["false", "0", "off"].contains (py_lower raw)) = true := by
        simpa using hm2
      rw [if_pos hc2, if_pos hm2]
    · have hc2 : ¬((["false", "0", "off"].contains (py_lower raw)) = true) := by
        simpa using hm2
      rw [if_neg hc2, if_neg hm2]

/-- C7: for a declared callback-free Boolean option, `set_option` stores
`True` exactly when the lowercased raw input is one of `true`, `1`, `on`,
stores `False` exactly when it is one of `false`, `0`, `off`, and for every
other token fails with `InvalidValue` and leaves the registry untouched. -/
theorem C7_boolean_acceptance (st : OptionsState) (name raw : String) (opt : Opt)
    (hfind : findOption st._options name = some opt)
    (hty : opt.type = "bool") (hcb : opt.callback = Option.none) :
    (py_lower raw ∈ ["true", "1", "on"] →
      (Options.set_option st name raw).1 = Except.ok opt.value ∧
      (findOption (Options.set_option st name raw).2._options name).map Opt.value =
        some (PyVal.bool true)) ∧
    (py_lower raw ∈ ["false", "0", "off"] →
      (Options.set_option st name raw).1 = Except.ok opt.value ∧
      (findOption (Options.set_option st name raw).2._options name).map Opt.value =
        some (PyVal.bool false)) ∧
    (py_lower raw ∉ ["true", "1", "on"] → py_lower raw ∉ ["false", "0", "off"] →
      (Options.set_option st name raw).1 = Except.error PyErr.typeError ∧
      (Options.set_option st name raw).2 = st) := by
  have hcv : coerce_value opt.type raw =
      (if py_lower raw ∈ ["true", "1", "on"] then
        Except.ok (PyVal.bool true, PyVal.str raw)
      else if py_lower raw ∈ ["false", "0", "off"] then
        Except.ok (PyVal.bool false, PyVal.str raw)
      else Except.error PyErr.typeError) := by
    rw [hty, coerce_value_bool]
  refine ⟨fun hm1 => ?_, fun hm2 => ?_, fun hm1 hm2 => ?_⟩
  · exact set_option_ok_no_callback st name raw opt (PyVal.bool true)
      (PyVal.str raw) hfind hcb (by rw [hcv, if_pos hm1])
  · by_cases hm1 : py_lower raw ∈ (["true", "1", "on"] : List String)
    · exfalso
      simp only [List.mem_cons, List.not_mem_nil, or_false] at hm1 hm2
      rcases hm1 with h1 | h1 | h1 <;> rcases hm2 with h2 | h2 | h2 <;>
        rw [h1] at h2 <;> exact absurd h2 (by decide)
    · exact set_option_ok_no_callback st name raw opt (PyVal.bool false)
        (PyVal.str raw) hfind hcb (by rw [hcv, if_neg hm1, if_pos hm2])
  · have h := set_option_coerce_error st name raw opt PyErr.typeError hfind
      (by rw [hcv, if_neg hm1, if_neg hm2])
    rw [h]
    exact ⟨rfl, rfl⟩

/-- Callback-free Boolean option used to witness C7. -/
def stC7 : OptionsState :=
  add_boolean (Options.init dirsC) "B" "b" true PyVal.none

/-- The option record held by `stC7` under the name `B`. -/
def optB : Opt :=
  { name := "B", type := "bool", help := "b", required := true,
    default := PyVal.none, value := PyVal.none, callback := Option.none }

/-- Witness for C7 at the raw input `ON`. -/
theorem C7_witness :
    (py_lower "ON" ∈ ["true", "1", "on"] →
      (Options.set_option stC7 "B" "ON").1 = Except.ok PyVal.none ∧
      (findOption (Options.set_option stC7 "B" "ON").2._options "B").map Opt.value =
        some (PyVal.bool true)) ∧
    (py_lower "ON" ∈ ["false", "0", "off"] →
      (Options.set_option stC7 "B" "ON").1 = Except.ok PyVal.none ∧
      (findOption (Options.set_option stC7 "B" "ON").2._options "B").map Opt.value =
        some (PyVal.bool false)) ∧
    (py_lower "ON" ∉ ["true", "1", "on"] → py_lower "ON" ∉ ["false", "0", "off"] →
      (Options.set_option stC7 "B" "ON").1 = Except.error PyErr.typeError ∧
      (Options.set_option stC7 "B" "ON").2 = stC7) :=
  C7_boolean_acceptance stC7 "B" "ON" optB rfl rfl rfl

/-- Membership in the required-and-unset name list, characterised through
dict lookup, on a registry with no duplicate names. -/
theorem mem_missing_names (l : List Opt) (n : String)
    (hnd : (l.map (fun o => o.name)).Nodup) :
    (n ∈ (l.filter (fun o => o.required && decide (o.value = PyVal.none))).map
        (fun o => o.name)) ↔
      ∃ opt, findOption l n = some opt ∧ opt.required = true ∧
        opt.value = PyVal.none := by
  induction l with
  | nil => simp [findOption]
  | cons x rest ih =>
    rw [List.map_cons, List.nodup_cons] at hnd
    by_cases hn : x.name = n
    · have hnotin : n ∉ (rest.filter
          (fun o => o.required && decide (o.value = PyVal.none))).map
          (fun o => o.name) := by
        intro hmem
        rcases List.mem_map.mp hmem with ⟨o, ho, hon⟩
        exact hnd.1 (hn ▸ hon ▸
          List.mem_map_of_mem (fun o => o.name) (List.mem_of_mem_filter ho))
      have hfo : findOption (x :: rest) n = some x := by
        simp [findOption, hn]
      constructor
      · intro hmem
        rw [List.filter_cons] at hmem
        by_cases hp : (x.required && decide (x.value = PyVal.none)) = true
        · have hp2 : x.required = true ∧ x.value = PyVal.none := by simpa using hp
          exact ⟨x, hfo, hp2.1, hp2.2⟩
        · rw [if_neg hp] at hmem
          exact absurd hmem hnotin
      · rintro ⟨opt, hfo2, hreq, hval⟩
        rw [hfo] at hfo2
        injection hfo2 with hfo2
        subst hfo2
        have hp : (x.required && decide (x.value = PyVal.none)) = true := by
          simp [hreq, hval]
        rw [List.filter_cons, if_pos hp]
        exact List.mem_map.mpr ⟨x, List.mem_cons_self _ _, hn⟩
    · have hfo : findOption (x :: rest) n = findOption rest n := by
        simp [findOption, hn]
      rw [hfo, List.filter_cons]
      by_cases hp : (x.required && decide (x.value = PyVal.none)) = true
      · rw [if_pos hp, List.map_cons, List.mem_cons]
        rw [ih hnd.2]
        constructor
        · rintro (h | h)
          · exact absurd h.symm hn
          · exact h
        · exact Or.inr
      · rw [if_neg hp]
        exact ih hnd.2

/-- C6: on a registry with no duplicate names, `get_missing_options` contains
exactly the names whose option is required and whose current value is `None`
(never defaulted nor successfully set), and the returned sequence is a
sublist of the declaration-ordered name list — hence its order is
deterministic for a fixed declaration history. -/
theorem C6_missing_required (st : OptionsState) (n : String)
    (hnd : (st._options.map (fun o => o.name)).Nodup) :
    (n ∈ get_missing_options st ↔
      ∃ opt, findOption st._options n = some opt ∧ opt.required = true ∧
        opt.value = PyVal.none) ∧
    List.Sublist (get_missing_options st) (st._options.map (fun o => o.name)) := by
  refine ⟨mem_missing_names st._options n hnd, ?_⟩
  show List.Sublist ((st._options.filter
      (fun o => o.required && decide (o.value = PyVal.none))).map (fun o => o.name))
    (st._options.map (fun o => o.name))
  exact List.Sublist.map _ (List.filter_sublist _)

/-- Registry with a required unset option `A` and a non-required option `B`,
used to witness C6. -/
def stC6 : OptionsState :=
  add_string (add_integer (Options.init dirsC) "A" "a" true PyVal.none)
    "B" "b" false PyVal.none

/-- Witness for C6 on `stC6` and the name `A`. -/
theorem C6_witness :
    ((stC6._options.map (fun o => o.name)).Nodup) ∧
    (("A" ∈ get_missing_options stC6 ↔
      ∃ opt, findOption stC6._options "A" = some opt ∧ opt.required = true ∧
        opt.value = PyVal.none) ∧
     List.Sublist (get_missing_options stC6) (stC6._options.map (fun o => o.name))) :=
  ⟨by decide, C6_missing_required stC6 "A" (by decide)⟩
